import Mathlib

/-!
Verification of the TLV (tag-length-value) encode/decode engine of an
ASN.1 BER/DER codec library, against its stated specification.

The two provided source files (sequence.rs and strings/string.rs) are
embedded shallowly: byte buffers become lists of natural numbers, the
borrowed-vs-owned byte view (Cow) becomes a two-constructor inductive
tag, fallible operations return Except values, and writing to an output
sink is modelled by returning the list of bytes written.  Supporting
parts of the library that the provided files call into (the Length and
Header codecs, Any, Utf8String, the element iterator, and the trait
plumbing) are not among the provided files; each of those definitions is
modelled from the specification text and marked as such in its doc
comment.
-/

namespace Asn1

set_option autoImplicit false

/-- Content is the borrowed-or-owned byte view used throughout the
library (Cow in the source).  Borrowed content is a zero-copy reference
into the input buffer; owned content is an independent copy. -/
inductive Content where
  | borrowed (bs : List Nat)
  | owned (bs : List Nat)
deriving DecidableEq, Repr

/-- Content.bytes is the dereference of the byte view: the bytes held,
whichever ownership state they are in. -/
def Content.bytes : Content → List Nat
  | .borrowed bs => bs
  | .owned bs => bs

/-- Content.isOwned tells whether the view holds an independent copy. -/
def Content.isOwned : Content → Bool
  | .borrowed _ => false
  | .owned _ => true

/-- Content.into_owned extracts the bytes as an independent value
(Cow.into_owned in the source). -/
def Content.into_owned (c : Content) : List Nat := c.bytes

/-- Error kinds of the library.  FormatError, IncompleteError,
TagMismatch, ConstraintError, LifetimeError and WriteError are the kinds
named by the specification (which calls LifetimeError by the name
ByLifetimeError; the source file uses Error.LifetimeError).
NotConstructed is the failure of the constructed-flag assertion used by
the TryFrom conversion of Sequence. -/
inductive Error where
  | FormatError
  | IncompleteError
  | TagMismatch
  | ConstraintError
  | LifetimeError
  | WriteError
  | NotConstructed
deriving DecidableEq, Repr

/-- Class is the 2-bit class field of the first header byte. -/
inductive Class where
  | universal
  | application
  | contextSpecific
  | privateClass
deriving DecidableEq, Repr

/-- Class.toBits gives the numeric value of the 2-bit class field. -/
def Class.toBits : Class → Nat
  | .universal => 0
  | .application => 1
  | .contextSpecific => 2
  | .privateClass => 3

/-- Tag numbers are non-negative integers. -/
abbrev Tag := Nat

/-- Tag.sequence is the universal tag of SEQUENCE. -/
def Tag.sequence : Tag := 16

/-- Tag.utf8String is the universal tag of UTF8String. -/
def Tag.utf8String : Tag := 12

/-- Length is the X.690 length field: a definite byte count, or the
indefinite form (BER only). -/
inductive Length where
  | Definite (n : Nat)
  | Indefinite
deriving DecidableEq, Repr

/-- bytesLen n is the minimal number of base-256 big-endian bytes
representing n (at least one byte). -/
def bytesLen (n : Nat) : Nat :=
  if n < 256 then 1 else 1 + bytesLen (n / 256)
decreasing_by exact Nat.div_lt_self (by omega) (by omega)

/-- beBytes n is the minimal big-endian base-256 byte string
representing n. -/
def beBytes (n : Nat) : List Nat :=
  if n < 256 then [n] else beBytes (n / 256) ++ [n % 256]
decreasing_by exact Nat.div_lt_self (by omega) (by omega)

/-- Length.to_der_len returns the byte size of the DER encoding of the
length field.  Modelled from the spec: the length codec emits the
one-byte short form for sizes below 127 and otherwise one count byte
followed by the minimal big-endian representation; an indefinite form
requested in DER serialization is a FormatError. -/
def Length.to_der_len : Length → Except Error Nat
  | .Definite n => .ok (if n < 127 then 1 else 1 + bytesLen n)
  | .Indefinite => .error .FormatError

/-- Length.write_der returns the bytes of the DER length field.
Modelled from the spec: short form is the size itself in one byte;
long form is a first byte with the high bit set holding the count of
following big-endian length bytes; indefinite is a FormatError under
DER. -/
def Length.write_der : Length → Except Error (List Nat)
  | .Definite n => .ok (if n < 127 then [n] else (128 + bytesLen n) :: beBytes n)
  | .Indefinite => .error .FormatError

/-- Header is the class, constructed flag, tag number and length that
prefix every TLV record.  The source constructs it with a numeric
constructed field (0 or 1); the spec describes it as a boolean, used
here. -/
structure Header where
  cls : Class
  constructed : Bool
  tag : Tag
  length : Length
deriving DecidableEq, Repr

/-- digits7 n is the big-endian base-128 digit list of n. -/
def digits7 (n : Nat) : List Nat :=
  if n < 128 then [n] else digits7 (n / 128) ++ [n % 128]
decreasing_by exact Nat.div_lt_self (by omega) (by omega)

/-- tagBytes t is the multi-byte tag-number encoding for tags of 31 and
above: base-128 big-endian, each byte except the last with the high bit
set.  Modelled from the spec. -/
def tagBytes (t : Nat) : List Nat :=
  (digits7 t).dropLast.map (fun d => d + 128) ++ [(digits7 t).getLastD 0]

/-- Header.write_der_header returns the bytes of the DER header.
Modelled from the spec: one identifier byte holding class (top two
bits), constructed flag (next bit) and tag numbers up to 30 inline,
with tag numbers of 31 and above signalled by 31 followed by base-128
continuation bytes; then the length field from the length codec. -/
def Header.write_der_header (h : Header) : Except Error (List Nat) :=
  let lead := h.cls.toBits * 64 + (if h.constructed then 32 else 0)
  let idBytes := if h.tag < 31 then [lead + h.tag] else (lead + 31) :: tagBytes h.tag
  match h.length.write_der with
  | .error e => .error e
  | .ok lb => .ok (idBytes ++ lb)

/-- Any pairs a decoded header with its raw content bytes, borrowed or
owned.  Modelled from the spec. -/
structure Any where
  header : Header
  content : Content
deriving DecidableEq, Repr

/-- Any.tag returns the tag of the header. -/
def Any.tag (a : Any) : Tag := a.header.tag

/-- Any.into_cow surrenders the content byte view. -/
def Any.into_cow (a : Any) : Content := a.content

/-- Tag.assert_eq checks a decoded tag against the expected tag of a
type, failing with TagMismatch otherwise.  Modelled from the spec. -/
def Tag.assert_eq (t expected : Tag) : Except Error Unit :=
  if t = expected then .ok () else .error .TagMismatch

/-- Header.assert_constructed checks that the header is marked
constructed.  Modelled from the spec; the failure is the not-constructed
error kind. -/
def Header.assert_constructed (h : Header) : Except Error Unit :=
  if h.constructed then .ok () else .error .NotConstructed

/-- Header.assert_primitive checks that the header is marked primitive,
failing with ConstraintError otherwise.  Modelled from the spec: the DER
string constraint failure is a ConstraintError. -/
def Header.assert_primitive (h : Header) : Except Error Unit :=
  if h.constructed then .error .ConstraintError else .ok ()

/-- Sequence wraps the raw content bytes of a SEQUENCE value, borrowed
or owned, exactly as the source structure does. -/
structure Sequence where
  content : Content
deriving DecidableEq, Repr

/-- Sequence.new builds a Sequence from a content view. -/
def Sequence.new (content : Content) : Sequence := ⟨content⟩

/-- Sequence.into_content surrenders the content view. -/
def Sequence.into_content (s : Sequence) : Content := s.content

/-- ParseResult is the result of a parse callback: the remaining input
and the parsed value, or an error. -/
abbrev ParseResult (T : Type) := Except Error (List Nat × T)

/-- Sequence.parse runs a decode function over the content bytes
without consuming the Sequence. -/
def Sequence.parse {T : Type} (s : Sequence) (f : List Nat → ParseResult T) :
    ParseResult T :=
  f s.content.bytes

/-- Sequence.parse_ref runs a decode function over the content bytes,
but only when the content is borrowed; owned content fails with
LifetimeError, exactly as the source match does. -/
def Sequence.parse_ref {T : Type} (s : Sequence) (f : List Nat → ParseResult T) :
    ParseResult T :=
  match s.content with
  | .borrowed b => f b
  | .owned _ => .error .LifetimeError

/-- Sequence.to_static copies the content into an owned buffer, the
ownership-normalization operation of the source. -/
def Sequence.to_static (s : Sequence) : Sequence :=
  ⟨.owned s.content.bytes⟩

/-- vecToStatic is the element-wise ownership normalization of a vector,
as the source ToStatic impl for Vec does, parameterized by the element
normalization. -/
def vecToStatic {T U : Type} (elemToStatic : T → U) (v : List T) : List U :=
  v.map (fun t => elemToStatic t)

/-- Sequence.rustEq is the derived structural equality of the source
Sequence type: the derived equality of Cow compares the dereferenced
byte slices, so two Sequences are equal exactly when their content bytes
are equal, whatever the ownership states. -/
def Sequence.rustEq (a b : Sequence) : Bool :=
  a.content.bytes == b.content.bytes

/-- Sequence.try_from is the TryFrom conversion from Any: assert the
tag is the SEQUENCE tag, assert the header is marked constructed, then
take over the content view. -/
def Sequence.try_from (a : Any) : Except Error Sequence :=
  match Tag.assert_eq a.tag Tag.sequence with
  | .error e => .error e
  | .ok _ =>
    match a.header.assert_constructed with
    | .error e => .error e
    | .ok _ => .ok ⟨a.into_cow⟩

/-- Sequence.check_constraints accepts every Any unconditionally, as the
source CheckDerConstraints impl does. -/
def Sequence.check_constraints (_a : Any) : Except Error Unit := .ok ()

/-- Sequence.to_der_len computes the total DER-encoded byte size:
2 + size for content sizes below 127, otherwise 1 + (length-field size)
+ size, exactly the branch of the source. -/
def Sequence.to_der_len (s : Sequence) : Except Error Nat :=
  let sz := s.content.bytes.length
  if sz < 127 then .ok (2 + sz)
  else
    match Length.to_der_len (.Definite sz) with
    | .error e => .error e
    | .ok n => .ok (1 + n + sz)

/-- Sequence.write_der_header writes the DER header built from class
Universal, constructed flag set, the SEQUENCE tag, and the definite
content length, as the source does. -/
def Sequence.write_der_header (s : Sequence) : Except Error (List Nat) :=
  Header.write_der_header
    ⟨Class.universal, true, Tag.sequence, .Definite s.content.bytes.length⟩

/-- Sequence.write_der_content writes the raw content bytes. -/
def Sequence.write_der_content (s : Sequence) : Except Error (List Nat) :=
  .ok s.content.bytes

/-- seqCollectGo drains the lazy element iterator with explicit fuel:
on empty input it stops cleanly, otherwise it runs the element decoder
on the remaining bytes, advances past the consumed bytes and recurses,
short-circuiting on the first element failure. -/
def seqCollectGo {T : Type} (step : List Nat → Except Error (T × List Nat)) :
    Nat → List Nat → Except Error (List T)
  | _, [] => .ok []
  | 0, _ :: _ => .error .IncompleteError
  | fuel + 1, b :: bs =>
    match step (b :: bs) with
    | .error e => .error e
    | .ok (t, rest) =>
      match seqCollectGo step fuel rest with
      | .error e => .error e
      | .ok ts => .ok (t :: ts)

/-- seqCollect drains the element iterator over a content region.
Modelled from the spec: the iterator repeatedly invokes the element
decode on successive suffixes of the content, advancing by each
element's consumed byte count, terminating cleanly when the content is
exhausted and short-circuiting on the first failure.  The element
decode itself, a trait method of the element type, is a parameter.
Every well-formed element consumes at least one byte, so fuel equal to
the byte count suffices; fuel exhaustion is reachable only for a
non-advancing element decoder. -/
def seqCollect {T : Type} (step : List Nat → Except Error (T × List Nat))
    (bs : List Nat) : Except Error (List T) :=
  seqCollectGo step bs.length bs

/-- Sequence.into_ber_sequence_of consumes the Sequence and decodes its
content into a vector of elements: borrowed content is drained directly,
while owned content is drained and then every element is
ownership-normalized, exactly the two branches of the source match.
The element decoder and the element normalization, trait methods of the
element type, are parameters. -/
def Sequence.into_ber_sequence_of {T : Type}
    (s : Sequence) (step : List Nat → Except Error (T × List Nat))
    (elemToStatic : T → T) : Except Error (List T) :=
  match s.content with
  | .borrowed bytes => seqCollect step bytes
  | .owned data =>
    match seqCollect step data with
    | .error e => .error e
    | .ok v1 => .ok (v1.map (fun t => elemToStatic t))

/-- Sequence.into_der_sequence_of is the DER-discipline owned-vector
decode; the source body is identical to the BER one up to the discipline
marker of the element decoder, which is already the step parameter
here. -/
def Sequence.into_der_sequence_of {T : Type}
    (s : Sequence) (step : List Nat → Except Error (T × List Nat))
    (elemToStatic : T → T) : Except Error (List T) :=
  match s.content with
  | .borrowed bytes => seqCollect step bytes
  | .owned data =>
    match seqCollect step data with
    | .error e => .error e
    | .ok v1 => .ok (v1.map (fun t => elemToStatic t))

/-- fromIterGo is the serialization loop of from_iter_to_der: serialize
each item in turn, extend the accumulated byte vector, short-circuit on
the first failure. -/
def fromIterGo {T : Type} (to_der_vec : T → Except Error (List Nat)) :
    List T → List Nat → Except Error (List Nat)
  | [], v => .ok v
  | item :: rest, v =>
    match to_der_vec item with
    | .error e => .error e
    | .ok item_v => fromIterGo to_der_vec rest (v ++ item_v)

/-- Sequence.from_iter_to_der serializes each item of the iterator via
its ToDer contract (the to_der_vec parameter) and wraps the accumulated
bytes as owned Sequence content, as the source loop does. -/
def Sequence.from_iter_to_der {T : Type}
    (to_der_vec : T → Except Error (List Nat)) (items : List T) :
    Except Error Sequence :=
  match fromIterGo to_der_vec items [] with
  | .error e => .error e
  | .ok v => .ok ⟨.owned v⟩

/-- mapExcept serializes a list element-wise, short-circuiting on the
first failure and returning the list of per-element results. -/
def mapExcept {T : Type} (f : T → Except Error (List Nat)) :
    List T → Except Error (List (List Nat))
  | [] => .ok []
  | i :: rest =>
    match f i with
    | .error e => .error e
    | .ok iv =>
      match mapExcept f rest with
      | .error e => .error e
      | .ok rs => .ok (iv :: rs)

/-- RString stands for the standard owned string type of the host
language (String in the source), represented by its UTF-8 bytes; both
length methods of the source measure these bytes. -/
structure RString where
  bytes : List Nat
deriving DecidableEq, Repr

/-- Utf8String is the borrowed-or-owned UTF8String ASN.1 type the
String conversion goes through.  Modelled from the spec: it holds the
content view of the Any it was extracted from. -/
structure Utf8String where
  data : Content
deriving DecidableEq, Repr

/-- Utf8String.try_from extracts an Any with the UTF8String tag into a
Utf8String holding its content view.  Modelled from the spec: the
conversion asserts the tag and extracts the content into the native
representation; no shape rule beyond the tag is specified for the
BER-discipline conversion. -/
def Utf8String.try_from (a : Any) : Except Error Utf8String :=
  match Tag.assert_eq a.tag Tag.utf8String with
  | .error e => .error e
  | .ok _ => .ok ⟨a.content⟩

/-- RString.try_from is the TryFrom conversion of the source: assert
the UTF8String tag, convert to Utf8String, take ownership of its
data. -/
def RString.try_from (a : Any) : Except Error RString :=
  match Tag.assert_eq a.tag Tag.utf8String with
  | .error e => .error e
  | .ok _ =>
    match Utf8String.try_from a with
    | .error e => .error e
    | .ok s => .ok ⟨s.data.into_owned⟩

/-- RString.check_constraints rejects a constructed encoding, the X.690
section 10.2 rule of the source. -/
def RString.check_constraints (a : Any) : Except Error Unit :=
  a.header.assert_primitive

/-- RString.from_ber is the BER-discipline conversion from Any.
Modelled from the spec: FromBer asserts the tag and converts, with no
constraint check. -/
def RString.from_ber (a : Any) : Except Error RString :=
  RString.try_from a

/-- RString.from_der is the DER-discipline conversion from Any.
Modelled from the spec: FromDer additionally runs CheckDerConstraints
before extracting. -/
def RString.from_der (a : Any) : Except Error RString :=
  match RString.check_constraints a with
  | .error e => .error e
  | .ok _ => RString.try_from a

/-- RString.to_der_len computes the total DER-encoded byte size with
the same 127 branch as Sequence, over the UTF-8 byte length. -/
def RString.to_der_len (s : RString) : Except Error Nat :=
  let sz := s.bytes.length
  if sz < 127 then .ok (2 + sz)
  else
    match Length.to_der_len (.Definite sz) with
    | .error e => .error e
    | .ok n => .ok (1 + n + sz)

/-- RString.write_der_header writes the DER header built from class
Universal, constructed flag clear, the UTF8String tag, and the definite
byte length, as the source does. -/
def RString.write_der_header (s : RString) : Except Error (List Nat) :=
  Header.write_der_header
    ⟨Class.universal, false, Tag.utf8String, .Definite s.bytes.length⟩

/-- RString.write_der_content writes the UTF-8 bytes. -/
def RString.write_der_content (s : RString) : Except Error (List Nat) :=
  .ok s.bytes

/-- probeStep is a concrete element decoder standing for a user-defined
element type: it consumes exactly one byte and yields the value
false. -/
def probeStep (bs : List Nat) : Except Error (Bool × List Nat) :=
  match bs with
  | [] => .error .IncompleteError
  | _ :: rest => .ok (false, rest)

/-- probeToStatic is a concrete element ownership normalization whose
output is observably different from its input: it always yields
true. -/
def probeToStatic (_ : Bool) : Bool := true

/-- beBytes_length: the minimal big-endian representation has exactly
bytesLen bytes. -/
theorem beBytes_length (n : Nat) : (beBytes n).length = bytesLen n := by
  induction n using Nat.strong_induction_on with
  | _ n ih =>
    rw [beBytes, bytesLen]
    by_cases h : n < 256
    · simp [h]
    · have hlt : n / 256 < n := Nat.div_lt_self (by omega) (by omega)
      simp [h, ih _ hlt]
      omega

/-- C4: parse_ref fails with the lifetime error kind on owned content,
and on borrowed content returns exactly the callback applied to the
content bytes. -/
theorem c4_parse_ref_lifetime_guard (T : Type) (f : List Nat → ParseResult T)
    (bs : List Nat) :
    Sequence.parse_ref ⟨.owned bs⟩ f = .error .LifetimeError ∧
    Sequence.parse_ref ⟨.borrowed bs⟩ f = f bs :=
  ⟨rfl, rfl⟩

/-- C7: ownership normalization is idempotent on Sequence and
element-wise on vectors of Sequence, and the normalized value holds
owned content only. -/
theorem c7_to_static_idempotent (s : Sequence) (v : List Sequence) :
    Sequence.to_static (Sequence.to_static s) = Sequence.to_static s ∧
    vecToStatic Sequence.to_static (vecToStatic Sequence.to_static v) =
      vecToStatic Sequence.to_static v ∧
    Content.isOwned (Sequence.to_static s).content = true ∧
    (vecToStatic Sequence.to_static v).all
      (fun t => Content.isOwned t.content) = true := by
  refine ⟨rfl, ?_, rfl, ?_⟩
  · simp [vecToStatic, Sequence.to_static, Content.bytes]
  · simp [vecToStatic, List.all_eq_true, Sequence.to_static, Content.isOwned]

/-- C10: the derived equality of Sequence compares content bytes and
ignores the ownership state, so a normalized Sequence equals the
original and a borrowed and an owned Sequence over the same bytes are
equal; and the DER constraint check of Sequence accepts every Any. -/
theorem c10_rust_eq_ignores_ownership (s t : Sequence) (bs : List Nat)
    (a : Any) :
    (Sequence.rustEq s t = true ↔ s.content.bytes = t.content.bytes) ∧
    Sequence.rustEq (Sequence.to_static s) s = true ∧
    Sequence.rustEq ⟨.borrowed bs⟩ ⟨.owned bs⟩ = true ∧
    Sequence.check_constraints a = .ok () := by
  refine ⟨?_, ?_, ?_, rfl⟩
  · simp [Sequence.rustEq]
  · simp [Sequence.rustEq, Sequence.to_static, Content.bytes]
  · simp [Sequence.rustEq, Content.bytes]

/-- C1: to_der_len of Sequence and of String returns 2 + size for
content sizes strictly below 127 (short form, inclusive up to 126) and
1 + n + size for sizes of 127 and above, where n is the length-field
size computed by the Length codec; the boundary sits exactly at
127. -/
theorem c1_to_der_len_threshold (s : Sequence) (str : RString) :
    (s.content.bytes.length < 127 →
      Sequence.to_der_len s = .ok (2 + s.content.bytes.length)) ∧
    (∀ n : Nat, 127 ≤ s.content.bytes.length →
      Length.to_der_len (.Definite s.content.bytes.length) = .ok n →
      Sequence.to_der_len s = .ok (1 + n + s.content.bytes.length)) ∧
    (str.bytes.length < 127 →
      RString.to_der_len str = .ok (2 + str.bytes.length)) ∧
    (∀ n : Nat, 127 ≤ str.bytes.length →
      Length.to_der_len (.Definite str.bytes.length) = .ok n →
      RString.to_der_len str = .ok (1 + n + str.bytes.length)) := by
  refine ⟨?_, ?_, ?_, ?_⟩
  · intro h
    simp [Sequence.to_der_len, h]
  · intro n h hn
    simp [Sequence.to_der_len, hn, Nat.not_lt.mpr h]
  · intro h
    simp [RString.to_der_len, h]
  · intro n h hn
    simp [RString.to_der_len, hn, Nat.not_lt.mpr h]

/-- C1 witness: concrete sizes 126 and 127 on both types, sitting on
the two sides of the short/long boundary. -/
theorem c1_to_der_len_threshold_witness :
    Sequence.to_der_len ⟨.borrowed (List.replicate 126 0)⟩ = .ok 128 ∧
    Sequence.to_der_len ⟨.owned (List.replicate 127 0)⟩ = .ok 130 ∧
    RString.to_der_len ⟨List.replicate 126 0⟩ = .ok 128 ∧
    RString.to_der_len ⟨List.replicate 127 0⟩ = .ok 130 := by
  have h1 := c1_to_der_len_threshold ⟨.borrowed (List.replicate 126 0)⟩
    ⟨List.replicate 126 0⟩
  have h2 := c1_to_der_len_threshold ⟨.owned (List.replicate 127 0)⟩
    ⟨List.replicate 127 0⟩
  have hlen : Length.to_der_len (.Definite (127 : Nat)) = .ok 2 := by
    simp [Length.to_der_len]
    rw [bytesLen]
    simp
  refine ⟨?_, ?_, ?_, ?_⟩
  · have := h1.1 (by simp [Content.bytes])
    simpa [Content.bytes] using this
  · have := h2.2.1 2 (by simp [Content.bytes])
      (by simpa [Content.bytes] using hlen)
    simpa [Content.bytes] using this
  · have := h1.2.2.1 (by simp)
    simpa using this
  · have := h2.2.2.2 2 (by simp) (by simpa using hlen)
    simpa using this

/-- C9: the DER header written for a Sequence carries class Universal,
constructed flag set, tag 16 and the definite content length, its
identifier byte being 48; the header written for a String carries
constructed flag clear, tag 12 and the definite byte length, its
identifier byte being 12. -/
theorem c9_write_der_header_fields (s : Sequence) (str : RString) :
    Sequence.write_der_header s =
      Header.write_der_header
        ⟨Class.universal, true, Tag.sequence,
          .Definite s.content.bytes.length⟩ ∧
    Sequence.write_der_header s =
      (Length.write_der (.Definite s.content.bytes.length)).map
        (fun lb => 48 :: lb) ∧
    RString.write_der_header str =
      Header.write_der_header
        ⟨Class.universal, false, Tag.utf8String, .Definite str.bytes.length⟩ ∧
    RString.write_der_header str =
      (Length.write_der (.Definite str.bytes.length)).map
        (fun lb => 12 :: lb) := by
  refine ⟨rfl, ?_, rfl, ?_⟩
  · simp [Sequence.write_der_header, Header.write_der_header,
      Length.write_der, Class.toBits, Tag.sequence, Except.map]
  · simp [RString.write_der_header, Header.write_der_header,
      Length.write_der, Class.toBits, Tag.utf8String, Except.map]

/-- C3: for every Sequence and every String, the computed encoded
length equals the number of header bytes written plus the number of
content bytes written. -/
theorem c3_encoded_length_consistency (s : Sequence) (str : RString) :
    (∃ hb cb, Sequence.write_der_header s = .ok hb ∧
      Sequence.write_der_content s = .ok cb ∧
      Sequence.to_der_len s = .ok (hb.length + cb.length)) ∧
    (∃ hb cb, RString.write_der_header str = .ok hb ∧
      RString.write_der_content str = .ok cb ∧
      RString.to_der_len str = .ok (hb.length + cb.length)) := by
  constructor
  · by_cases hsz : s.content.bytes.length < 127
    · refine ⟨[48, s.content.bytes.length], s.content.bytes, ?_, rfl, ?_⟩
      · simp [Sequence.write_der_header, Header.write_der_header,
          Length.write_der, Class.toBits, Tag.sequence, hsz]
      · simp [Sequence.to_der_len, hsz]
    · refine ⟨48 :: (128 + bytesLen s.content.bytes.length) ::
        beBytes s.content.bytes.length, s.content.bytes, ?_, rfl, ?_⟩
      · simp [Sequence.write_der_header, Header.write_der_header,
          Length.write_der, Class.toBits, Tag.sequence, hsz]
      · simp [Sequence.to_der_len, hsz, Length.to_der_len, beBytes_length]
        omega
  · by_cases hsz : str.bytes.length < 127
    · refine ⟨[12, str.bytes.length], str.bytes, ?_, rfl, ?_⟩
      · simp [RString.write_der_header, Header.write_der_header,
          Length.write_der, Class.toBits, Tag.utf8String, hsz]
      · simp [RString.to_der_len, hsz]
    · refine ⟨12 :: (128 + bytesLen str.bytes.length) ::
        beBytes str.bytes.length, str.bytes, ?_, rfl, ?_⟩
      · simp [RString.write_der_header, Header.write_der_header,
          Length.write_der, Class.toBits, Tag.utf8String, hsz]
      · simp [RString.to_der_len, hsz, Length.to_der_len, beBytes_length]
        omega

/-- C5: the TryFrom conversion from Any to Sequence succeeds exactly
when the tag is the SEQUENCE tag and the header is marked constructed,
in which case the resulting content is exactly the content of the Any;
a wrong tag fails with TagMismatch and a non-constructed header with
the not-constructed error. -/
theorem c5_sequence_try_from (a : Any) :
    (Sequence.try_from a = .ok ⟨a.content⟩ ↔
      a.header.tag = Tag.sequence ∧ a.header.constructed = true) ∧
    (a.header.tag ≠ Tag.sequence →
      Sequence.try_from a = .error .TagMismatch) ∧
    (a.header.tag = Tag.sequence → a.header.constructed = false →
      Sequence.try_from a = .error .NotConstructed) := by
  by_cases ht : a.header.tag = Tag.sequence <;>
    by_cases hc : a.header.constructed = true <;>
      simp [Sequence.try_from, Tag.assert_eq, Header.assert_constructed,
        Any.tag, Any.into_cow, ht, hc]

/-- C5 witness: a constructed SEQUENCE-tagged Any converts, keeping its
content; tag 12 is a TagMismatch; a primitive header is the
not-constructed error. -/
theorem c5_sequence_try_from_witness :
    Sequence.try_from
        ⟨⟨Class.universal, true, 16, .Definite 2⟩, .borrowed [1, 2]⟩ =
      .ok ⟨.borrowed [1, 2]⟩ ∧
    Sequence.try_from
        ⟨⟨Class.universal, true, 12, .Definite 0⟩, .borrowed []⟩ =
      .error .TagMismatch ∧
    Sequence.try_from
        ⟨⟨Class.universal, false, 16, .Definite 0⟩, .borrowed []⟩ =
      .error .NotConstructed := by
  refine ⟨?_, ?_, ?_⟩
  · exact (c5_sequence_try_from _).1.mpr ⟨rfl, rfl⟩
  · exact (c5_sequence_try_from _).2.1 (by decide)
  · exact (c5_sequence_try_from _).2.2 rfl rfl

/-- C6: on an Any with the UTF8String tag, a constructed header makes
the DER constraint check of String fail with ConstraintError, and
FromDer with it, while FromBer skips the check and succeeds with the
content bytes; a primitive header passes the check. -/
theorem c6_string_der_rejects_constructed (a : Any) :
    a.header.tag = Tag.utf8String →
    (a.header.constructed = true →
      RString.check_constraints a = .error .ConstraintError ∧
      RString.from_der a = .error .ConstraintError ∧
      RString.from_ber a = .ok ⟨a.content.bytes⟩) ∧
    (a.header.constructed = false →
      RString.check_constraints a = .ok ()) := by
  intro ht
  constructor
  · intro hc
    refine ⟨?_, ?_, ?_⟩ <;>
      simp [RString.check_constraints, RString.from_der, RString.from_ber,
        RString.try_from, Utf8String.try_from, Header.assert_primitive,
        Tag.assert_eq, Any.tag, Content.into_owned, ht, hc]
  · intro hc
    simp [RString.check_constraints, Header.assert_primitive, hc]

/-- C6 witness: a concrete constructed UTF8String Any fails the check
and FromDer, succeeds under FromBer; the primitive variant passes the
check. -/
theorem c6_string_der_rejects_constructed_witness :
    RString.check_constraints
        ⟨⟨Class.universal, true, 12, .Definite 1⟩, .borrowed [97]⟩ =
      .error .ConstraintError ∧
    RString.from_der
        ⟨⟨Class.universal, true, 12, .Definite 1⟩, .borrowed [97]⟩ =
      .error .ConstraintError ∧
    RString.from_ber
        ⟨⟨Class.universal, true, 12, .Definite 1⟩, .borrowed [97]⟩ =
      .ok ⟨[97]⟩ ∧
    RString.check_constraints
        ⟨⟨Class.universal, false, 12, .Definite 1⟩, .borrowed [97]⟩ =
      .ok () := by
  have h := c6_string_der_rejects_constructed
    ⟨⟨Class.universal, true, 12, .Definite 1⟩, .borrowed [97]⟩ rfl
  have h2 := c6_string_der_rejects_constructed
    ⟨⟨Class.universal, false, 12, .Definite 1⟩, .borrowed [97]⟩ rfl
  exact ⟨(h.1 rfl).1, (h.1 rfl).2.1, (h.1 rfl).2.2, h2.2 rfl⟩

/-- C2 counterexample: with an element type whose ownership
normalization is observable (probeToStatic sends every value to true),
the owned-vector decode of a Sequence with borrowed content returns the
decoded elements untouched, not their normalized images: it yields
the value false while normalizing every decoded element would yield
true. -/
theorem c2_counterexample :
    Sequence.into_ber_sequence_of ⟨.borrowed [0]⟩ probeStep probeToStatic =
      .ok [false] ∧
    Sequence.into_der_sequence_of ⟨.borrowed [0]⟩ probeStep probeToStatic =
      .ok [false] ∧
    (seqCollect probeStep [0]).map (List.map probeToStatic) = .ok [true] ∧
    (Except.ok [false] : Except Error (List Bool)) ≠ .ok [true] := by
  refine ⟨rfl, rfl, rfl, by simp⟩

/-- C2 as amended: the owned-vector decode applies the element
ownership normalization to every decoded element when the content of
the Sequence is owned; when the content is borrowed it returns the
decoded elements unchanged. -/
theorem c2_into_owned_vec_normalization (T : Type)
    (step : List Nat → Except Error (T × List Nat)) (ts : T → T)
    (bs : List Nat) :
    Sequence.into_ber_sequence_of ⟨.owned bs⟩ step ts =
      (seqCollect step bs).map (List.map ts) ∧
    Sequence.into_ber_sequence_of ⟨.borrowed bs⟩ step ts =
      seqCollect step bs ∧
    Sequence.into_der_sequence_of ⟨.owned bs⟩ step ts =
      (seqCollect step bs).map (List.map ts) ∧
    Sequence.into_der_sequence_of ⟨.borrowed bs⟩ step ts =
      seqCollect step bs := by
  refine ⟨?_, rfl, ?_, rfl⟩ <;>
    cases h : seqCollect step bs <;>
      simp [Sequence.into_ber_sequence_of, Sequence.into_der_sequence_of,
        h, Except.map]

/-- fromIterGo_eq: the serialization loop equals the element-wise
serialization followed by flattening, prefixed by the accumulator. -/
theorem fromIterGo_eq (T : Type) (f : T → Except Error (List Nat)) :
    ∀ (items : List T) (v : List Nat),
      fromIterGo f items v =
        (mapExcept f items).map (fun ls => v ++ ls.flatten) := by
  intro items
  induction items with
  | nil => intro v; simp [fromIterGo, mapExcept, Except.map]
  | cons i rest ih =>
    intro v
    cases hf : f i with
    | error e => simp [fromIterGo, mapExcept, hf, Except.map]
    | ok iv =>
      cases hm : mapExcept f rest with
      | error e => simp [fromIterGo, mapExcept, hf, hm, ih, Except.map]
      | ok rs => simp [fromIterGo, mapExcept, hf, hm, ih, Except.map]

/-- C8: from_iter_to_der equals the element-wise DER serialization of
the items, short-circuiting on the first failure, the successful result
being a Sequence owning the concatenation of the per-item byte strings
in iteration order. -/
theorem c8_from_iter_to_der (T : Type)
    (to_der_vec : T → Except Error (List Nat)) (items : List T) :
    Sequence.from_iter_to_der to_der_vec items =
      (mapExcept to_der_vec items).map
        (fun ls => ⟨.owned ls.flatten⟩) := by
  unfold Sequence.from_iter_to_der
  rw [fromIterGo_eq]
  cases mapExcept to_der_vec items <;> simp [Except.map]

end Asn1
